import Mathlib

/-!
Shallow embedding of the calculation engine of `soap_calc_app.py`
(the soap / lye calculator).  Python floats are modelled as exact
rationals (`ℚ`); the "within floating-point tolerance" caveats of the
specification then become exact equalities.  Fallible code (a raised
`ValueError` / pandas `KeyError`) is modelled with `Except String`.
-/

instance {ε α : Type} [DecidableEq ε] [DecidableEq α] :
    DecidableEq (Except ε α)
  | Except.error a, Except.error b =>
    if h : a = b then isTrue (by rw [h]) else isFalse (by simp [h])
  | Except.error _, Except.ok _ => isFalse (by simp)
  | Except.ok _, Except.error _ => isFalse (by simp)
  | Except.ok a, Except.ok b =>
    if h : a = b then isTrue (by rw [h]) else isFalse (by simp [h])

/-- An input oil record, mirroring the dictionaries
`{"name": str, "weight_g": float, "sap_naoh": float}` consumed by
`calc_lye_required`. -/
structure Oil where
  name : String
  weight_g : ℚ
  sap_naoh : ℚ
deriving Repr, DecidableEq

/-- `KOH_FACTOR = 1.403` (source line 24). -/
def KOH_FACTOR : ℚ := 1403 / 1000

/-- The per-gram alkali demand resolved for the chosen alkali
(source lines 38-41): `sap_naoh` when `alkali == "NaOH"`, else
`sap_naoh * KOH_FACTOR`. -/
def resolveSap (alkali : String) (sap_naoh : ℚ) : ℚ :=
  if alkali = "NaOH" then sap_naoh else sap_naoh * KOH_FACTOR

/-- One row of the breakdown `DataFrame` built by `calc_lye_required`:
the four columns appended inside the loop (source lines 46-51) plus the
discounted column added at line 57. -/
structure BreakdownRow where
  oilName : String
  weight : ℚ
  sap : ℚ
  lye0sf : ℚ
  lyeSF : ℚ
deriving Repr, DecidableEq

/-- The running sum `total_lye_0sf` accumulated by the loop of
`calc_lye_required` (source lines 33-44). -/
def total_lye_0sf (oils : List Oil) (alkali : String) : ℚ :=
  (oils.map (fun oil => oil.weight_g * resolveSap alkali oil.sap_naoh)).sum

/-- The breakdown row appended for one oil (source lines 46-51), with the
discounted value of the column added at line 57. -/
def mkRow (alkali : String) (lye_discount : ℚ) (oil : Oil) : BreakdownRow :=
  let sap := resolveSap alkali oil.sap_naoh
  { oilName := oil.name
    weight := oil.weight_g
    sap := sap
    lye0sf := oil.weight_g * sap
    lyeSF := oil.weight_g * sap * lye_discount }

/-- `calc_lye_required` (source lines 26-58).  Returns the pair
`(total_lye, df)`.  When `oils` is empty, `pd.DataFrame(rows)` has no
columns at all, so the column lookup on line 57
(`df["Lye @0% SF (g) [...]"]`) raises a pandas `KeyError`; that raise is
modelled as the `.error` branch. -/
def calc_lye_required (oils : List Oil) (alkali : String)
    (superfat_pct : ℚ) : Except String (ℚ × List BreakdownRow) :=
  let lye_discount : ℚ := 1 - superfat_pct / 100
  let total_lye : ℚ := total_lye_0sf oils alkali * lye_discount
  if oils.isEmpty then
    Except.error "KeyError"
  else
    Except.ok (total_lye, oils.map (mkRow alkali lye_discount))

/-- `water_from_lye_concentration` (source lines 60-68). -/
def water_from_lye_concentration (lye_g : ℚ)
    (concentration_pct : ℚ) : Except String ℚ :=
  let c : ℚ := concentration_pct / 100
  if c ≤ 0 ∨ c ≥ 1 then
    Except.error "Lye concentration must be between 1 and 99."
  else
    Except.ok (lye_g * (1 - c) / c)

/-- `water_from_water_lye_ratio` (source lines 70-77). -/
def water_from_water_lye_ratio (lye_g : ℚ)
    (water_to_lye : ℚ) : Except String ℚ :=
  if water_to_lye ≤ 0 then
    Except.error "Water:lye ratio must be > 0."
  else
    Except.ok (lye_g * water_to_lye)

/-- The olive-oil entry of the spec's concrete scenario:
weight 500 g, NaOH SAP value 0.134. -/
def oliveOil500 : Oil :=
  { name := "Olive Oil", weight_g := 500, sap_naoh := 67 / 500 }

/-! ### Helper lemmas -/

lemma resolveSap_naoh (s : ℚ) : resolveSap "NaOH" s = s := rfl

lemma resolveSap_not_naoh (alkali : String) (s : ℚ) (h : alkali ≠ "NaOH") :
    resolveSap alkali s = s * KOH_FACTOR := by
  simp [resolveSap, h]

lemma calc_lye_required_ok_inv (oils : List Oil) (alkali : String)
    (superfat_pct t : ℚ) (bd : List BreakdownRow)
    (h : calc_lye_required oils alkali superfat_pct = Except.ok (t, bd)) :
    t = total_lye_0sf oils alkali * (1 - superfat_pct / 100) ∧
    bd = oils.map (mkRow alkali (1 - superfat_pct / 100)) := by
  unfold calc_lye_required at h
  by_cases he : oils.isEmpty = true
  · rw [if_pos he] at h
    exact absurd h (by simp)
  · rw [if_neg he] at h
    simp only [Except.ok.injEq, Prod.mk.injEq] at h
    exact ⟨h.1.symm, h.2.symm⟩

lemma sum_map_lyeSF (oils : List Oil) (alkali : String) (d : ℚ) :
    ((oils.map (mkRow alkali d)).map (fun r => r.lyeSF)).sum =
      total_lye_0sf oils alkali * d := by
  rw [List.map_map, total_lye_0sf, ← List.sum_map_mul_right]
  rfl

lemma total_lye_0sf_not_naoh (oils : List Oil) (alkali : String)
    (h : alkali ≠ "NaOH") :
    total_lye_0sf oils alkali = total_lye_0sf oils "NaOH" * KOH_FACTOR := by
  simp only [total_lye_0sf, ← List.sum_map_mul_right]
  refine congrArg List.sum (List.map_congr_left ?_)
  intro oil _
  simp [resolveSap_not_naoh alkali _ h, resolveSap_naoh, mul_assoc]

/-! ### Claim theorems -/

/-- Claim C1: whenever `calc_lye_required` returns a result, the total
alkali mass equals the sum over all oils of `weight_g` times the resolved
saponification value, multiplied by `1 - superfat_pct / 100`, and this
total also equals the sum of the discounted per-oil values of the
returned breakdown. -/
theorem C1_total_alkali_summation_invariant (oils : List Oil)
    (alkali : String) (superfat_pct t : ℚ) (bd : List BreakdownRow)
    (h : calc_lye_required oils alkali superfat_pct = Except.ok (t, bd)) :
    t = total_lye_0sf oils alkali * (1 - superfat_pct / 100) ∧
    t = (bd.map (fun r => r.lyeSF)).sum := by
  obtain ⟨ht, hbd⟩ := calc_lye_required_ok_inv _ _ _ _ _ h
  refine ⟨ht, ?_⟩
  rw [hbd, sum_map_lyeSF, ht]

/-- Concrete instance of claim C1 at one 500 g olive-oil entry, NaOH,
superfat 5 %. -/
theorem C1_total_alkali_summation_invariant_witness :
    (1273 / 20 : ℚ) = total_lye_0sf [oliveOil500] "NaOH" * (1 - 5 / 100) ∧
    (1273 / 20 : ℚ) =
      (([({ oilName := "Olive Oil", weight := 500, sap := 67 / 500,
            lye0sf := 67, lyeSF := 1273 / 20 } : BreakdownRow)]).map
        (fun r => r.lyeSF)).sum :=
  C1_total_alkali_summation_invariant [oliveOil500] "NaOH" 5 (1273 / 20) _
    (by simp [calc_lye_required, total_lye_0sf, resolveSap, oliveOil500,
          mkRow]
        norm_num)

/-- Claim C2 (code bug): for the empty oils list `calc_lye_required` does
NOT return zero totals and an empty breakdown; the pandas column lookup on
source line 57 raises `KeyError` (the empty `DataFrame` has no columns),
for every alkali and every superfat percent. -/
theorem C2_empty_oils_raises (alkali : String) (superfat_pct : ℚ) :
    calc_lye_required [] alkali superfat_pct =
      Except.error "KeyError" := rfl

/-- Claim C3: `water_from_lye_concentration` fails exactly when
`c = concentration_pct / 100` satisfies `c ≤ 0` or `c ≥ 1`; otherwise it
returns `lye_g * (1 - c) / c`. -/
theorem C3_concentration_domain (lye_g concentration_pct : ℚ) :
    ((∃ msg, water_from_lye_concentration lye_g concentration_pct =
        Except.error msg) ↔
      concentration_pct / 100 ≤ 0 ∨ concentration_pct / 100 ≥ 1) ∧
    (0 < concentration_pct / 100 → concentration_pct / 100 < 1 →
      water_from_lye_concentration lye_g concentration_pct =
        Except.ok (lye_g * (1 - concentration_pct / 100) /
          (concentration_pct / 100))) := by
  simp only [water_from_lye_concentration]
  by_cases hc : concentration_pct / 100 ≤ 0 ∨ concentration_pct / 100 ≥ 1
  · rw [if_pos hc]
    refine ⟨⟨fun _ => hc, fun _ => ⟨_, rfl⟩⟩, ?_⟩
    intro h0 h1
    rcases hc with hc | hc
    · exact absurd h0 (not_lt.mpr hc)
    · exact absurd h1 (not_lt.mpr hc)
  · rw [if_neg hc]
    exact ⟨⟨fun ⟨msg, hmsg⟩ => absurd hmsg (by simp),
      fun h => absurd h hc⟩, fun _ _ => rfl⟩

/-- Concrete instance of claim C3 at 33 % concentration. -/
theorem C3_concentration_domain_witness :
    water_from_lye_concentration 10 33 =
      Except.ok (10 * (1 - 33 / 100) / (33 / 100)) :=
  (C3_concentration_domain 10 33).2 (by norm_num) (by norm_num)

/-- Claim C4: `water_from_water_lye_ratio` fails exactly when the ratio
is ≤ 0; otherwise it returns `lye_g` times the ratio, with no further
normalization. -/
theorem C4_ratio_domain (lye_g r : ℚ) :
    ((∃ msg, water_from_water_lye_ratio lye_g r = Except.error msg) ↔
      r ≤ 0) ∧
    (0 < r →
      water_from_water_lye_ratio lye_g r = Except.ok (lye_g * r)) := by
  simp only [ water_from_water_lye_ratio]
  by_cases hr : r ≤ 0
  · rw [if_pos hr]
    exact ⟨⟨fun _ => hr, fun _ => ⟨_, rfl⟩⟩,
      fun h0 => absurd h0 (not_lt.mpr hr)⟩
  · rw [if_neg hr]
    exact ⟨⟨fun ⟨msg, hmsg⟩ => absurd hmsg (by simp),
      fun h => absurd h hr⟩, fun _ => rfl⟩

/-- Concrete instance of claim C4 at ratio 2. -/
theorem C4_ratio_domain_witness :
    water_from_water_lye_ratio (1273 / 20) 2 =
      Except.ok (1273 / 20 * 2) :=
  (C4_ratio_domain (1273 / 20) 2).2 (by norm_num)

/-- Claim C5: concentration mode at the fraction `c ∈ (0,1)` (i.e. the
percentage `100 * c`) and ratio mode at `(1 - c) / c` produce identical
water mass. -/
theorem C5_concentration_ratio_agree (L c : ℚ) (h0 : 0 < c) (h1 : c < 1) :
    water_from_lye_concentration L (100 * c) =
      water_from_water_lye_ratio L ((1 - c) / c) := by
  have hc : (100 : ℚ) * c / 100 = c := by field_simp
  have hr : (0 : ℚ) < (1 - c) / c := div_pos (by linarith) h0
  simp only [water_from_lye_concentration, water_from_water_lye_ratio, hc]
  rw [if_neg (by push_neg; exact ⟨h0, h1⟩), if_neg (not_le.mpr hr),
    mul_div_assoc]

/-- Concrete instance of claim C5 at `c = 1/2`. -/
theorem C5_concentration_ratio_agree_witness :
    water_from_lye_concentration 10 (100 * (1 / 2)) =
      water_from_water_lye_ratio 10 ((1 - 1 / 2) / (1 / 2)) :=
  C5_concentration_ratio_agree 10 (1 / 2) (by norm_num) (by norm_num)

/-- Claim C6: on the same inputs, the KOH total equals the NaOH total
multiplied by `KOH_FACTOR = 1.403`. -/
theorem C6_koh_total_is_naoh_total_times_factor (oils : List Oil)
    (superfat_pct tN tK : ℚ) (bdN bdK : List BreakdownRow)
    (hN : calc_lye_required oils "NaOH" superfat_pct = Except.ok (tN, bdN))
    (hK : calc_lye_required oils "KOH" superfat_pct = Except.ok (tK, bdK)) :
    tK = tN * KOH_FACTOR := by
  have h1 := (calc_lye_required_ok_inv _ _ _ _ _ hN).1
  have h2 := (calc_lye_required_ok_inv _ _ _ _ _ hK).1
  rw [h1, h2, total_lye_0sf_not_naoh oils "KOH" (by decide)]
  ring

/-- Concrete instance of claim C6 at one 500 g olive-oil entry,
superfat 0 %. -/
theorem C6_koh_total_is_naoh_total_times_factor_witness :
    (94001 / 1000 : ℚ) = 67 * KOH_FACTOR :=
  C6_koh_total_is_naoh_total_times_factor [oliveOil500] 0 67
    (94001 / 1000)
    [{ oilName := "Olive Oil", weight := 500, sap := 67 / 500,
       lye0sf := 67, lyeSF := 67 }]
    [{ oilName := "Olive Oil", weight := 500, sap := 94001 / 500000,
       lye0sf := 94001 / 1000, lyeSF := 94001 / 1000 }]
    (by simp [calc_lye_required, total_lye_0sf, resolveSap, oliveOil500,
          mkRow]
        norm_num)
    (by simp [calc_lye_required, total_lye_0sf, resolveSap, oliveOil500,
          mkRow, KOH_FACTOR]
        norm_num)

/-- Claim C7: the discount factor `1 - superfat_pct / 100` is applied
without clamping for every superfat percent; superfat 0 yields the
undiscounted sum and superfat 100 yields total 0. -/
theorem C7_superfat_discount_unclamped (oils : List Oil) (alkali : String)
    (superfat_pct t : ℚ) (bd : List BreakdownRow)
    (h : calc_lye_required oils alkali superfat_pct = Except.ok (t, bd)) :
    t = total_lye_0sf oils alkali * (1 - superfat_pct / 100) ∧
    (superfat_pct = 0 → t = total_lye_0sf oils alkali) ∧
    (superfat_pct = 100 → t = 0) := by
  have h1 := (calc_lye_required_ok_inv _ _ _ _ _ h).1
  refine ⟨h1, fun h0 => ?_, fun h100 => ?_⟩
  · rw [h1, h0]; norm_num
  · rw [h1, h100]; norm_num

/-- Concrete instance of claim C7 at the out-of-range superfat 150 %,
where the unclamped discount factor is negative. -/
theorem C7_superfat_discount_unclamped_witness :
    (-(67 / 2) : ℚ) = total_lye_0sf [oliveOil500] "NaOH" *
      (1 - 150 / 100) ∧
    ((150 : ℚ) = 0 →
      (-(67 / 2) : ℚ) = total_lye_0sf [oliveOil500] "NaOH") ∧
    ((150 : ℚ) = 100 → (-(67 / 2) : ℚ) = 0) :=
  C7_superfat_discount_unclamped [oliveOil500] "NaOH" 150 (-(67 / 2))
    [{ oilName := "Olive Oil", weight := 500, sap := 67 / 500,
       lye0sf := 67, lyeSF := -(67 / 2) }]
    (by simp [calc_lye_required, total_lye_0sf, resolveSap, oliveOil500,
          mkRow]
        norm_num)

/-- Claim C9: `calc_lye_required` never validates the alkali argument:
for every string other than `"NaOH"` it resolves every oil's
saponification value as `sap_naoh * KOH_FACTOR` (behaving exactly as for
`"KOH"`) and, on any non-empty oil list, completes normally with no
error. -/
theorem C9_alkali_never_validated (alkali : String) (h : alkali ≠ "NaOH")
    (oils : List Oil) (superfat_pct : ℚ) :
    (∀ oil ∈ oils, resolveSap alkali oil.sap_naoh =
      oil.sap_naoh * KOH_FACTOR) ∧
    calc_lye_required oils alkali superfat_pct =
      calc_lye_required oils "KOH" superfat_pct ∧
    (oils ≠ [] → ∃ t bd,
      calc_lye_required oils alkali superfat_pct =
        Except.ok (t, bd)) := by
  have hres : ∀ s : ℚ, resolveSap alkali s = resolveSap "KOH" s := by
    intro s
    rw [resolveSap_not_naoh alkali s h,
      resolveSap_not_naoh "KOH" s (by decide)]
  refine ⟨fun oil _ => resolveSap_not_naoh alkali _ h, ?_, ?_⟩
  · have htot : total_lye_0sf oils alkali = total_lye_0sf oils "KOH" := by
      simp only [total_lye_0sf]
      exact congrArg List.sum
        (List.map_congr_left fun oil _ => by rw [hres])
    have hrow : mkRow alkali = mkRow "KOH" := by
      funext d oil
      simp [mkRow, hres]
    unfold calc_lye_required
    rw [htot, hrow]
  · intro hne
    have he : oils.isEmpty = false := by
      cases oils with
      | nil => exact absurd rfl hne
      | cons o os => rfl
    refine ⟨total_lye_0sf oils alkali * (1 - superfat_pct / 100),
      oils.map (mkRow alkali (1 - superfat_pct / 100)), ?_⟩
    unfold calc_lye_required
    rw [if_neg (by simp [he])]

/-- Concrete instance of claim C9 at the unknown alkali string
`"LiOH"`. -/
theorem C9_alkali_never_validated_witness :
    (∀ oil ∈ [oliveOil500], resolveSap "LiOH" oil.sap_naoh =
      oil.sap_naoh * KOH_FACTOR) ∧
    calc_lye_required [oliveOil500] "LiOH" 5 =
      calc_lye_required [oliveOil500] "KOH" 5 ∧
    ([oliveOil500] ≠ [] → ∃ t bd,
      calc_lye_required [oliveOil500] "LiOH" 5 = Except.ok (t, bd)) :=
  C9_alkali_never_validated "LiOH" (by decide) [oliveOil500] 5

/-- Claim C10: neither water calculator constrains the alkali-mass
argument: for `lye_g ≤ 0` and valid mode parameters both return the
formula value, a zero-or-negative water mass, without error. -/
theorem C10_lye_mass_unconstrained (lye_g concentration_pct r : ℚ)
    (hL : lye_g ≤ 0) (hp0 : 0 < concentration_pct)
    (hp1 : concentration_pct < 100) (hr : 0 < r) :
    water_from_lye_concentration lye_g concentration_pct =
      Except.ok (lye_g * (1 - concentration_pct / 100) /
        (concentration_pct / 100)) ∧
    water_from_water_lye_ratio lye_g r = Except.ok (lye_g * r) ∧
    lye_g * (1 - concentration_pct / 100) / (concentration_pct / 100) ≤ 0 ∧
    lye_g * r ≤ 0 := by
  have h0 : (0 : ℚ) < concentration_pct / 100 :=
    div_pos hp0 (by norm_num)
  have h1 : concentration_pct / 100 < 1 :=
    (div_lt_one (by norm_num)).mpr hp1
  refine ⟨?_, ?_, ?_, ?_⟩
  · simp only [water_from_lye_concentration]
    rw [if_neg (by push_neg; exact ⟨h0, h1⟩)]
  · simp only [ water_from_water_lye_ratio]
    rw [if_neg (not_le.mpr hr)]
  · exact div_nonpos_of_nonpos_of_nonneg
      (mul_nonpos_iff.mpr (Or.inr ⟨hL, by linarith⟩)) h0.le
  · exact mul_nonpos_iff.mpr (Or.inr ⟨hL, hr.le⟩)

/-- Concrete instance of claim C10 at `lye_g = -10`. -/
theorem C10_lye_mass_unconstrained_witness :
    water_from_lye_concentration (-10) 33 =
      Except.ok ((-10) * (1 - 33 / 100) / (33 / 100)) ∧
    water_from_water_lye_ratio (-10) 2 = Except.ok ((-10) * 2) ∧
    (-10 : ℚ) * (1 - 33 / 100) / (33 / 100) ≤ 0 ∧
    (-10 : ℚ) * 2 ≤ 0 :=
  C10_lye_mass_unconstrained (-10) 33 2 (by norm_num) (by norm_num)
    (by norm_num) (by norm_num)

/-- Claim C8 counterexample: at the stated scenario (one 500 g olive-oil
entry with NaOH SAP 0.134, superfat 5 %, concentration mode at 33 %) the
code's water mass is 85291/660 ≈ 129.23 g and its batch mass is
≈ 692.88 g; both differ from the claimed 129.29 g and 692.94 g by more
than 0.05 g, so they are not approximations of the claimed values even at
a generous tolerance. -/
theorem C8_scenario_water_counterexample :
    calc_lye_required [oliveOil500] "NaOH" 5 =
      Except.ok (1273 / 20,
        [{ oilName := "Olive Oil", weight := 500, sap := 67 / 500,
           lye0sf := 67, lyeSF := 1273 / 20 }]) ∧
    water_from_lye_concentration (1273 / 20) 33 =
      Except.ok (85291 / 660) ∧
    1 / 20 < (12929 / 100 : ℚ) - 85291 / 660 ∧
    1 / 20 < (69294 / 100 : ℚ) - (500 + 1273 / 20 + 85291 / 660) := by
  refine ⟨?_, ?_, by norm_num, by norm_num⟩
  · simp [calc_lye_required, total_lye_0sf, resolveSap, oliveOil500,
      mkRow]
    norm_num
  · simp [water_from_lye_concentration]
    norm_num

/-- Claim C8 (amended): at the scenario the 0 %-superfat total is 67 g
and the final alkali total is 63.65 g as claimed, but the water mass is
85291/660 ≈ 129.23 g (not 129.29 g) and the batch mass
oils + alkali + water is 457300/660 ≈ 692.88 g (not 692.94 g); the
approximations hold within 0.01. -/
theorem C8_scenario_amended :
    total_lye_0sf [oliveOil500] "NaOH" = 67 ∧
    calc_lye_required [oliveOil500] "NaOH" 5 =
      Except.ok (6365 / 100,
        [{ oilName := "Olive Oil", weight := 500, sap := 67 / 500,
           lye0sf := 67, lyeSF := 6365 / 100 }]) ∧
    water_from_lye_concentration (6365 / 100) 33 =
      Except.ok (85291 / 660) ∧
    (12922 / 100 : ℚ) < 85291 / 660 ∧
    (85291 / 660 : ℚ) < 12924 / 100 ∧
    500 + 6365 / 100 + 85291 / 660 = (457300 / 660 : ℚ) ∧
    (69287 / 100 : ℚ) < 457300 / 660 ∧
    (457300 / 660 : ℚ) < 69289 / 100 := by
  refine ⟨?_, ?_, ?_, by norm_num, by norm_num, by norm_num, by norm_num,
    by norm_num⟩
  · simp [total_lye_0sf, resolveSap, oliveOil500]
    norm_num
  · simp [calc_lye_required, total_lye_0sf, resolveSap, oliveOil500,
      mkRow]
    norm_num
  · simp [water_from_lye_concentration]
    norm_num
